import Mathlib

/-!
Verification of the Athena window-lifecycle / theme / log core.

This file gives a shallow embedding, in Lean, of the host-side services of the
repository (src/main/service/WindowService.ts, ThemeService.ts, LogService.ts),
of the rate-limiting primitive src/common/utils/debounce.ts, and of the channel
constants shared with the preload bridge (src/preload.ts).  Electron primitives
(nativeTheme, BrowserWindow) are external collaborators; they are modelled by
their documented semantics, noted at each definition.  Stateful handlers become
explicit state-passing functions; fire-and-forget sends become elements of an
output list.
-/

/-- Theme mode, the value space of nativeTheme.themeSource
(src/unnamed/part_003: type ThemeMode = dark | light | system). -/
inductive ThemeMode
  | dark
  | light
  | system
deriving DecidableEq

/-- Log levels supported by the log sink (src/main/service/LogService.ts). -/
inductive LogLevel
  | debug
  | info
  | warn
  | error
deriving DecidableEq

/-- Channel name constant CLOSE_WINDOW of the shared IPC_EVENTS enum. -/
def IPC_EVENTS.CLOSE_WINDOW : String := "close-window"

/-- Channel name constant MINIMIZE_WINDOW of the shared IPC_EVENTS enum. -/
def IPC_EVENTS.MINIMIZE_WINDOW : String := "minimize-window"

/-- Channel name constant MAXIMIZE_WINDOW of the shared IPC_EVENTS enum. -/
def IPC_EVENTS.MAXIMIZE_WINDOW : String := "maximize-window"

/-- Channel name constant IS_WINDOW_MAXIMIZED of the shared IPC_EVENTS enum. -/
def IPC_EVENTS.IS_WINDOW_MAXIMIZED : String := "is-window-maximized"

/-- Channel name constant SET_THEME_MODE of the shared IPC_EVENTS enum. -/
def IPC_EVENTS.SET_THEME_MODE : String := "set-theme-mode"

/-- Channel name constant GET_THEME_MODE of the shared IPC_EVENTS enum. -/
def IPC_EVENTS.GET_THEME_MODE : String := "get-theme-mode"

/-- Channel name constant IS_DARK_THEME of the shared IPC_EVENTS enum. -/
def IPC_EVENTS.IS_DARK_THEME : String := "is-dark-theme"

/-- Channel name constant THEME_MODE_UPDATED of the shared IPC_EVENTS enum. -/
def IPC_EVENTS.THEME_MODE_UPDATED : String := "theme-mode-updated"

/-- Channel name constant LOG_DEBUG of the shared IPC_EVENTS enum. -/
def IPC_EVENTS.LOG_DEBUG : String := "log-debug"

/-- Channel name constant LOG_INFO of the shared IPC_EVENTS enum. -/
def IPC_EVENTS.LOG_INFO : String := "log-info"

/-- Channel name constant LOG_WARN of the shared IPC_EVENTS enum. -/
def IPC_EVENTS.LOG_WARN : String := "log-warn"

/-- Channel name constant LOG_ERROR of the shared IPC_EVENTS enum. -/
def IPC_EVENTS.LOG_ERROR : String := "log-error"

/-!
Theme Coordinator (src/main/service/ThemeService.ts).

Electron's nativeTheme is modelled as a record of its authoritative
themeSource together with the OS-reported dark flag; its documented derived
property shouldUseDarkColors is dark under themeSource = dark, light under
themeSource = light, and follows the OS value under themeSource = system.
-/

/-- Model of Electron nativeTheme: the set themeSource plus the OS-level
dark/light signal value. -/
structure NativeTheme where
  themeSource : ThemeMode
  osDark : Bool
deriving DecidableEq

/-- Electron nativeTheme.shouldUseDarkColors, derived from themeSource and the
OS value (documented Electron semantics). -/
def NativeTheme.shouldUseDarkColors (t : NativeTheme) : Bool :=
  match t.themeSource with
  | ThemeMode.dark => true
  | ThemeMode.light => false
  | ThemeMode.system => t.osDark

/-- Handler of the SET_THEME_MODE request (ThemeService._setupIpcEvent):
assigns nativeTheme.themeSource := mode and replies with the resulting
nativeTheme.shouldUseDarkColors.  Returns (new nativeTheme state, reply). -/
def ThemeService.handleSetThemeMode (t : NativeTheme) (mode : ThemeMode) :
    NativeTheme × Bool :=
  let t2 : NativeTheme := { t with themeSource := mode }
  (t2, t2.shouldUseDarkColors)

/-- Handler of the IS_DARK_THEME request: replies with
nativeTheme.shouldUseDarkColors. -/
def ThemeService.handleIsDarkTheme (t : NativeTheme) : Bool :=
  t.shouldUseDarkColors

/-- Handler of the GET_THEME_MODE request: replies with
nativeTheme.themeSource. -/
def ThemeService.handleGetThemeMode (t : NativeTheme) : ThemeMode :=
  t.themeSource

/-- A window as seen by the theme broadcast: its id and whether it has been
destroyed. -/
structure ThemeWin where
  wid : Nat
  destroyed : Bool
deriving DecidableEq

/-- Electron BrowserWindow.getAllWindows(): the array of all opened browser
windows; a destroyed window is no longer among them (documented Electron
semantics). -/
def getAllWindows (wins : List ThemeWin) : List ThemeWin :=
  wins.filter (fun w => !w.destroyed)

/-- The nativeTheme updated listener registered by ThemeService: it assigns
the private field isDark := nativeTheme.shouldUseDarkColors and then sends
THEME_MODE_UPDATED with that value to the webContents of every window returned
by BrowserWindow.getAllWindows().  Result: (new isDark field, list of sent
messages as (window id, channel, payload)). -/
def ThemeService.onNativeThemeUpdated (t : NativeTheme) (wins : List ThemeWin) :
    Bool × List (Nat × String × Bool) :=
  let isDark := t.shouldUseDarkColors
  (isDark,
   (getAllWindows wins).map (fun w => (w.wid, IPC_EVENTS.THEME_MODE_UPDATED, isDark)))

/-!
Window Lifecycle Manager (src/main/service/WindowService.ts).

A BrowserWindow is modelled as a record of the native flags the service
touches.  Electron's documented semantics for destroyed windows is part of
the model: after destruction a BrowserWindow object is unusable and calling
a method on it throws the destroyed-object error (the repository itself
guards webContents.send behind an isDestroyed check for this reason), while
BrowserWindow.fromWebContents and BrowserWindow.getAllWindows simply no
longer resolve destroyed windows.
-/

/-- Model of an Electron BrowserWindow as the window service uses it:
the id of its webContents, the destroyed flag, and the native window flags
read or written by the service. -/
structure Win where
  webContentsId : Nat
  destroyed : Bool
  minimized : Bool
  maximized : Bool
  maximizable : Bool
  closeRequested : Bool
deriving DecidableEq

/-- Electron BrowserWindow method call close(): requests native teardown of
the window.  On an already-destroyed BrowserWindow any method call raises the
platform destroyed-object error (documented Electron semantics). -/
def Win.nativeClose (w : Win) : Except String Win :=
  if w.destroyed then Except.error ("Object has been destroyed")
  else Except.ok { w with closeRequested := true }

/-- Electron BrowserWindow.fromWebContents(sender): resolves the window that
owns the sending webContents; none when no live window owns it (the
webContents of a destroyed window no longer resolves to a window). -/
def browserWindowFromWebContents (wins : List Win) (senderId : Nat) : Option Win :=
  wins.find? (fun w => !w.destroyed && w.webContentsId == senderId)

/-- WindowService.close (lines 179-182): a null / undefined target is an
immediate no-op; otherwise target.close() is invoked on the handle with no
destroyed-state check. -/
def WindowService.close : Option Win → Except String (Option Win)
  | Option.none => Except.ok Option.none
  | Option.some w => (Win.nativeClose w).map (fun w2 => Option.some w2)

/-- WindowService.toggleMax (lines 186-189): a null target is a no-op;
otherwise unmaximize when maximized, else maximize. -/
def WindowService.toggleMax : Option Win → Option Win
  | Option.none => Option.none
  | Option.some w =>
      Option.some (if w.maximized then { w with maximized := false }
                   else { w with maximized := true })

/-- Electron BrowserWindow.minimize() as used through optional chaining in
the minimize handler. -/
def Win.minimizeOp (w : Win) : Win :=
  { w with minimized := true }

/-- An incoming IPC message: the transport-level id of the sending
webContents plus a caller-supplied payload of arbitrary type. -/
structure IpcEvent (π : Type) where
  senderId : Nat
  payload : π

/-- Handler of the CLOSE_WINDOW command (WindowService._setupIPcEvents):
this.close(BrowserWindow.fromWebContents(e.sender)).  The payload is never
consulted. -/
def WindowService.handleCloseWindow {π : Type} (wins : List Win) (e : IpcEvent π) :
    Except String (Option Win) :=
  WindowService.close (browserWindowFromWebContents wins e.senderId)

/-- Handler of the MINIMIZE_WINDOW command:
BrowserWindow.fromWebContents(e.sender)?.minimize().  The payload is never
consulted. -/
def WindowService.handleMinimizeWindow {π : Type} (wins : List Win) (e : IpcEvent π) :
    Option Win :=
  (browserWindowFromWebContents wins e.senderId).map Win.minimizeOp

/-- Handler of the MAXIMIZE_WINDOW command:
this.toggleMax(BrowserWindow.fromWebContents(e.sender)).  The payload is
never consulted. -/
def WindowService.handleMaximizeWindow {π : Type} (wins : List Win) (e : IpcEvent π) :
    Option Win :=
  WindowService.toggleMax (browserWindowFromWebContents wins e.senderId)

/-- Per-surface state around teardown: destroyed flag, the maximizable flag
read by the resize callback, whether the resize listener is still attached,
and the deadline of the pending debounce timer when one is scheduled. -/
structure Surface where
  destroyed : Bool
  maximizable : Bool
  resizeListenerAttached : Bool
  pendingDebounce : Option Nat
deriving DecidableEq

/-- The teardown actions available to the once-closed handler of
WindowService._setupWinLifecycle.  cancelDebounce stands for invoking the
cancel() method the debounced updateWinStatus exposes
(src/common/utils/debounce.ts lines 70-75); it appears in this type so that
its absence from the handler body is expressible. -/
inductive ClosedStep
  | destroyWindow
  | removeResizeListener
  | logClosed
  | cancelDebounce
deriving DecidableEq

/-- Effect of one teardown action on the per-surface state. -/
def applyClosedStep (s : Surface) : ClosedStep → Surface
  | ClosedStep.destroyWindow => { s with destroyed := true }
  | ClosedStep.removeResizeListener => { s with resizeListenerAttached := false }
  | ClosedStep.logClosed => s
  | ClosedStep.cancelDebounce => { s with pendingDebounce := Option.none }

/-- The statements of the once-closed handler (WindowService._setupWinLifecycle
lines 147-151), in order: window.destroy(), window.removeListener(resize,
updateWinStatus), logManager.info(...). -/
def WindowService.closedHandlerSteps : List ClosedStep :=
  [ClosedStep.destroyWindow, ClosedStep.removeResizeListener, ClosedStep.logClosed]

/-- Running the once-closed handler over the per-surface state. -/
def WindowService.runClosedHandler (s : Surface) : Surface :=
  WindowService.closedHandlerSteps.foldl applyClosedStep s

/-- The debounced resize callback updateWinStatus (lines 143-145): the body
is the short-circuit conjunction !window.isDestroyed() &&
window.webContents.send(MAXIMIZE_WINDOW + back, window.isMaximizable()), so
nothing is sent when the window is destroyed.  Returns the message sent, if
any, as (channel, payload). -/
def WindowService.updateWinStatusSend (s : Surface) : Option (String × Bool) :=
  if s.destroyed then Option.none
  else Option.some (IPC_EVENTS.MAXIMIZE_WINDOW ++ "back", s.maximizable)

/-- A concrete already-destroyed window, used as input to concrete tests. -/
def destroyedWinSample : Win :=
  { webContentsId := 7, destroyed := true, minimized := false,
    maximized := false, maximizable := true, closeRequested := false }

/-- A concrete live window owning webContents 1, used as input to concrete
tests. -/
def liveWinSample : Win :=
  { webContentsId := 1, destroyed := false, minimized := false,
    maximized := false, maximizable := true, closeRequested := false }

/-!
Log Sink (src/main/service/LogService.ts).

The constructor is embedded as its statement sequence; the retention sweep as
a function over a model of the log directory.  The fallible filesystem calls
(fs.stat, fs.unlink, fs.readdir) are modelled by per-entry / per-directory
fault flags: a raised flag means the corresponding call rejects, and the
embedding routes that rejection through the catch block of the source, which
turns it into a logged error line.
-/

/-- The character-suffix test underlying the JS expression
file.endsWith(dotLog) used by the retention sweep filter. -/
def charsSuffix (s post : List Char) : Bool :=
  (s.reverse.take post.length) == post.reverse

/-- JS String.prototype.endsWith: does s end with the characters of post. -/
def jsEndsWith (s post : String) : Bool :=
  charsSuffix s.toList post.toList

/-- The statements a LogService instance could perform while being
constructed; runSetupIpcEvent and runRewriteConsoleLog stand for invoking the
class methods _setupIpcEvent and _rewriteConsoleLog, listed so that their
absence from the constructor body is expressible. -/
inductive LogCtorStep
  | ensureLogDir
  | setResolvePathFn
  | setFileFormat
  | setMaxSize
  | setFileLevel
  | logInitMessage
  | runCleanupOldLogs
  | scheduleCleanupInterval
  | runSetupIpcEvent
  | runRewriteConsoleLog
deriving DecidableEq

/-- The statement sequence of the LogService private constructor (lines
43-93), in source order: ensure the log directory exists, configure the
electron-log file transport (path resolver, line format, max size, level),
write the init log line, run one retention sweep, and schedule the 24-hour
sweep interval.  The class methods _setupIpcEvent and _rewriteConsoleLog are
invoked nowhere in the repository, so no step runs them. -/
def LogService.constructorSteps : List LogCtorStep :=
  [LogCtorStep.ensureLogDir, LogCtorStep.setResolvePathFn, LogCtorStep.setFileFormat,
   LogCtorStep.setMaxSize, LogCtorStep.setFileLevel, LogCtorStep.logInitMessage,
   LogCtorStep.runCleanupOldLogs, LogCtorStep.scheduleCleanupInterval]

/-- The ipcMain.on registrations the method LogService._setupIpcEvent
performs when run (lines 99-117), in order: one handler per log command
channel. -/
def LogService.setupIpcEventChannels : List String :=
  [IPC_EVENTS.LOG_DEBUG, IPC_EVENTS.LOG_INFO, IPC_EVENTS.LOG_WARN, IPC_EVENTS.LOG_ERROR]

/-- The ipcMain channels on which one constructor step registers handlers:
only a run of _setupIpcEvent registers any. -/
def logCtorStepChannels (s : LogCtorStep) : List String :=
  match s with
  | LogCtorStep.runSetupIpcEvent => LogService.setupIpcEventChannels
  | _ => []

/-- All ipcMain channels that constructing the LogService singleton registers
handlers on: the union, in order, over the steps the constructor actually
runs. -/
def LogService.registeredChannels : List String :=
  (LogService.constructorSteps.map logCtorStepChannels).flatten

/-- The command channel the preload bridge logger sends on for each log level
(src/preload.ts lines 32-37). -/
def preloadLoggerChannel : LogLevel → String
  | LogLevel.debug => IPC_EVENTS.LOG_DEBUG
  | LogLevel.info => IPC_EVENTS.LOG_INFO
  | LogLevel.warn => IPC_EVENTS.LOG_WARN
  | LogLevel.error => IPC_EVENTS.LOG_ERROR

/-- Retention window in days (LogService.LOG_RETENTION_DAYS). -/
def LOG_RETENTION_DAYS : Int := 7

/-- Milliseconds per day, the factor in the expiration-date computation. -/
def msPerDay : Int := 24 * 60 * 60 * 1000

/-- A directory entry as the retention sweep sees it: its name, the stat
data the sweep reads (regular-file flag and creation time in ms since epoch),
and the fault flags of the fallible calls: statErr means fs.stat rejects for
this entry, unlinkErr means fs.unlink rejects. -/
structure LogFile where
  name : String
  isFile : Bool
  birthtime : Int
  statErr : Bool
  unlinkErr : Bool
deriving DecidableEq

/-- The log directory as one sweep observes it: whether it exists, whether
listing it fails, and its entries in listing order. -/
structure LogDir where
  dirExists : Bool
  readdirErr : Bool
  files : List LogFile
deriving DecidableEq

/-- Outcome of one retention sweep: the names unlinked, in order, and the
error lines logged by the catch blocks.  The sweep always returns such a
value: failures are logged, never propagated. -/
structure SweepResult where
  deleted : List String
  errLogged : List String
deriving DecidableEq

/-- The per-file loop of LogService._cleanupOldLogs: entries not ending in
.log are skipped; each remaining entry is stat-ed and unlinked when it is a
regular file with creation time strictly before the expiration date; a stat
or unlink rejection is caught by the inner catch, logged, and the loop
continues with the remaining entries. -/
def LogService.sweepFiles (cutoff : Int) : List LogFile → SweepResult
  | [] => { deleted := [], errLogged := [] }
  | f :: rest =>
    let tail := LogService.sweepFiles cutoff rest
    if !(jsEndsWith f.name (".log")) then tail
    else if f.statErr then
      { tail with errLogged := ("Failed to cleanup old log file: " ++ f.name) :: tail.errLogged }
    else if f.isFile && decide (f.birthtime < cutoff) then
      if f.unlinkErr then
        { tail with errLogged := ("Failed to cleanup old log file: " ++ f.name) :: tail.errLogged }
      else
        { tail with deleted := f.name :: tail.deleted }
    else tail

/-- LogService._cleanupOldLogs (lines 141-192): a missing log directory
returns silently before anything else; a directory-listing failure is caught
by the outer catch and logged; otherwise the expiration date is now minus
LOG_RETENTION_DAYS days and the per-file loop runs over the listing. -/
def LogService.cleanupOldLogs (now : Int) (dir : LogDir) : SweepResult :=
  if !dir.dirExists then { deleted := [], errLogged := [] }
  else if dir.readdirErr then
    { deleted := [], errLogged := [("Failed to cleanup old logs")] }
  else LogService.sweepFiles (now - LOG_RETENTION_DAYS * msPerDay) dir.files

/-- Files the sweep unlinks: .log-suffixed regular files, stat-able, strictly
older than the cutoff, whose unlink succeeds. -/
def sweptPred (cutoff : Int) (f : LogFile) : Bool :=
  jsEndsWith f.name (".log") && !f.statErr && f.isFile &&
    decide (f.birthtime < cutoff) && !f.unlinkErr

/-- Files for which the sweep logs a per-file failure: .log-suffixed entries
whose stat rejects, or expired regular files whose unlink rejects. -/
def sweepFailPred (cutoff : Int) (f : LogFile) : Bool :=
  jsEndsWith f.name (".log") &&
    (f.statErr || (f.isFile && decide (f.birthtime < cutoff) && f.unlinkErr))

/-- Day-file name pattern stated by the spec (log-YYYY-MM-DD.log).  This
definition follows the wording of the spec, not the source, and exists to be
compared with the source's suffix-only filter. -/
def matchesDayFilePattern (name : String) : Bool :=
  match name.toList with
  | ['l', 'o', 'g', '-', y1, y2, y3, y4, '-', m1, m2, '-', d1, d2, '.', 'l', 'o', 'g'] =>
      y1.isDigit && y2.isDigit && y3.isDigit && y4.isDigit &&
      m1.isDigit && m2.isDigit && d1.isDigit && d2.isDigit
  | _ => false

/-- A concrete log directory holding one fresh day file (created at day 19)
and one stale file whose name is not a day-file name (created at day 12). -/
def fooLogDir : LogDir :=
  { dirExists := true, readdirErr := false,
    files :=
      [ { name := "log-2024-01-19.log", isFile := true, birthtime := 19 * msPerDay,
          statErr := false, unlinkErr := false },
        { name := "foo.log", isFile := true, birthtime := 12 * msPerDay,
          statErr := false, unlinkErr := false } ] }

/-- A concrete fresh day file created at day 19 with no fs faults. -/
def freshDayFile : LogFile :=
  { name := "log-2024-01-19.log", isFile := true, birthtime := 19 * msPerDay,
    statErr := false, unlinkErr := false }

/-- A concrete day file created at day 10 with no fs faults. -/
def oldDayFile10 : LogFile :=
  { name := "log-2024-01-10.log", isFile := true, birthtime := 10 * msPerDay,
    statErr := false, unlinkErr := false }

/-- A concrete log directory holding day files created at days 19, 12 and 10:
with the sweep run at day 20, these are the now-1, now-8 and now-10 files of
the spec's retention scenario. -/
def schedLogDir : LogDir :=
  { dirExists := true, readdirErr := false,
    files :=
      [ freshDayFile,
        { name := "log-2024-01-12.log", isFile := true, birthtime := 12 * msPerDay,
          statErr := false, unlinkErr := false },
        oldDayFile10 ] }

/-- A concrete expired day file whose fs.stat rejects. -/
def badStatFile : LogFile :=
  { name := "log-2024-01-11.log", isFile := true, birthtime := 11 * msPerDay,
    statErr := true, unlinkErr := false }

/-- A concrete expired day file with no fs faults. -/
def oldOkFile : LogFile :=
  { name := "log-2024-01-12.log", isFile := true, birthtime := 12 * msPerDay,
    statErr := false, unlinkErr := false }

/-!
Rate-limiting primitive debounce (src/common/utils/debounce.ts), default
(non-immediate) mode.

The single-threaded timer semantics is embedded as a small machine: calls
arrive in time order; each call clears any pending timer (clearTimeout) and
schedules the wrapped function at its own time plus wait with its own calling
context and arguments (setTimeout storing the closure over context and args);
a pending timer whose deadline has passed before the next call arrives has
already fired.  After the last call, the surviving timer fires at its
deadline.
-/

/-- One invocation of the debounced wrapper: arrival time (ms), the calling
context (the JS this value) and the argument tuple, kept abstract. -/
structure DebCall (γ α : Type) where
  time : Nat
  ctx : γ
  args : α

/-- Timer state of the debounced wrapper in default mode: the pending
trailing timer, if any, as (deadline, context, args), plus the executions of
the wrapped function so far as (execution time, context, args). -/
structure DebState (γ α : Type) where
  pending : Option (Nat × γ × α)
  fired : List (Nat × γ × α)

/-- Effect of one incoming call on the timer state: a pending timer whose
deadline already passed has fired before this call runs; otherwise the call
clears it (clearTimeout); either way the call schedules the wrapped function
at time + wait with this call's context and arguments. -/
def debounceStep {γ α : Type} (wait : Nat) (s : DebState γ α) (c : DebCall γ α) :
    DebState γ α :=
  match s.pending with
  | Option.some p =>
      if p.1 ≤ c.time then
        { pending := Option.some (c.time + wait, c.ctx, c.args),
          fired := s.fired ++ [p] }
      else
        { pending := Option.some (c.time + wait, c.ctx, c.args), fired := s.fired }
  | Option.none =>
      { pending := Option.some (c.time + wait, c.ctx, c.args), fired := s.fired }

/-- All executions of the wrapped function produced by a finite, time-ordered
sequence of calls to the debounced wrapper, including the trailing timer that
fires once the sequence goes quiet. -/
def debounceRun {γ α : Type} (wait : Nat) (calls : List (DebCall γ α)) :
    List (Nat × γ × α) :=
  let final := calls.foldl (debounceStep wait) { pending := Option.none, fired := [] }
  match final.pending with
  | Option.some p => final.fired ++ [p]
  | Option.none => final.fired

/-- A burst: consecutive calls arrive in time order and each gap is strictly
below the wait window. -/
def burstWithin {γ α : Type} (wait : Nat) : List (DebCall γ α) → Bool
  | [] => true
  | [_] => true
  | a :: b :: rest =>
      (decide (a.time ≤ b.time) && decide (b.time < a.time + wait)) &&
        burstWithin wait (b :: rest)

/-- Nine further calls at 2 ms intervals after a first call at time 0: with
the head call below they form 10 calls within 20 ms, against the 80 ms
window the window service uses. -/
def burstRest9 : List (DebCall Nat Nat) :=
  [⟨2, 1, 1⟩, ⟨4, 2, 2⟩, ⟨6, 3, 3⟩, ⟨8, 4, 4⟩, ⟨10, 5, 5⟩,
   ⟨12, 6, 6⟩, ⟨14, 7, 7⟩, ⟨16, 8, 8⟩, ⟨18, 9, 9⟩]

/-- C4: for every mode m in dark/light/system, a SET_THEME_MODE request with
payload m followed immediately by an IS_DARK_THEME request (no intervening OS
signal) returns dark ↦ true, light ↦ false, system ↦ the current OS value; and
the SET_THEME_MODE reply itself carries that same resolved boolean. -/
theorem C4_set_mode_then_is_dark (t : NativeTheme) (mode : ThemeMode) :
    (ThemeService.handleSetThemeMode t mode).2 =
      (match mode with
       | ThemeMode.dark => true
       | ThemeMode.light => false
       | ThemeMode.system => t.osDark) ∧
    ThemeService.handleIsDarkTheme (ThemeService.handleSetThemeMode t mode).1 =
      (ThemeService.handleSetThemeMode t mode).2 := by
  cases mode <;> exact ⟨rfl, rfl⟩

/-- C5: on every firing of the OS theme-change signal, the coordinator
recomputes isDark and sends the THEME_MODE_UPDATED broadcast carrying that
recomputed boolean to every currently live window; under distinct window ids,
a window already destroyed at broadcast time receives nothing. -/
theorem C5_theme_broadcast (t : NativeTheme) (wins : List ThemeWin) (w : ThemeWin)
    (hmem : w ∈ wins) (hnodup : (wins.map (fun x => x.wid)).Nodup) :
    (w.destroyed = false →
      (w.wid, IPC_EVENTS.THEME_MODE_UPDATED, t.shouldUseDarkColors) ∈
        (ThemeService.onNativeThemeUpdated t wins).2) ∧
    (w.destroyed = true →
      ∀ m ∈ (ThemeService.onNativeThemeUpdated t wins).2, m.1 ≠ w.wid) ∧
    (ThemeService.onNativeThemeUpdated t wins).1 = t.shouldUseDarkColors := by
  refine ⟨?_, ?_, rfl⟩
  · intro hlive
    simp only [ThemeService.onNativeThemeUpdated, getAllWindows, List.mem_map]
    exact ⟨w, List.mem_filter.mpr ⟨hmem, by simp [hlive]⟩, rfl⟩
  · intro hdead m hm
    simp only [ThemeService.onNativeThemeUpdated, getAllWindows, List.mem_map] at hm
    obtain ⟨x, hxmem, hxeq⟩ := hm
    obtain ⟨hxin, hxlive⟩ := List.mem_filter.mp hxmem
    intro hid
    have hxw : x = w := by
      have hinj := List.inj_on_of_nodup_map hnodup
      exact hinj hxin hmem (by rw [← hxeq] at hid; exact hid)
    rw [hxw] at hxlive
    simp [hdead] at hxlive

/-- Witness for C5 at a concrete input: with one live window (id 1) and one
destroyed window (id 2), the live window receives the broadcast. -/
theorem C5_theme_broadcast_witness :
    ((1 : Nat), IPC_EVENTS.THEME_MODE_UPDATED, true) ∈
      (ThemeService.onNativeThemeUpdated ⟨ThemeMode.dark, false⟩
        [⟨1, false⟩, ⟨2, true⟩]).2 :=
  (C5_theme_broadcast ⟨ThemeMode.dark, false⟩ [⟨1, false⟩, ⟨2, true⟩] ⟨1, false⟩
    (by decide) (by decide)).1 rfl

/-- C2 counterexample: at the concrete surface state with a pending debounce
timer (deadline 42), running the once-closed teardown leaves the timer
pending: the handler body never invokes the debounce cancel(), refuting that
the pending timer is explicitly cancelled during the closed teardown. -/
theorem C2_counterexample :
    ClosedStep.cancelDebounce ∉ WindowService.closedHandlerSteps ∧
    (WindowService.runClosedHandler
      { destroyed := false, maximizable := true,
        resizeListenerAttached := true, pendingDebounce := Option.some 42 }).pendingDebounce
      = Option.some 42 := by
  decide

/-- C2 amended: the once-closed teardown destroys the window and detaches the
resize listener, but does not invoke the debounce cancel(), so a pending
timer survives teardown unchanged; the destroyed-handle race is instead
prevented inside the debounced callback itself, whose isDestroyed guard sends
nothing against the post-teardown state. -/
theorem C2_teardown_detaches_without_cancel (s : Surface) :
    (WindowService.runClosedHandler s).destroyed = true ∧
    (WindowService.runClosedHandler s).resizeListenerAttached = false ∧
    (WindowService.runClosedHandler s).pendingDebounce = s.pendingDebounce ∧
    WindowService.updateWinStatusSend (WindowService.runClosedHandler s) = Option.none := by
  refine ⟨rfl, rfl, rfl, ?_⟩
  simp [WindowService.updateWinStatusSend, WindowService.runClosedHandler,
    WindowService.closedHandlerSteps, applyClosedStep]

/-- C3 counterexample: calling close on a concrete handle that is already in
the destroyed state is not a silent no-op: the unguarded target.close() call
surfaces the platform destroyed-object error. -/
theorem C3_counterexample :
    WindowService.close (Option.some destroyedWinSample) =
      Except.error ("Object has been destroyed") :=
  rfl

/-- C3 amended: close(handle) is a no-op raising no error for a null handle,
but the destroyed case is unguarded: for a handle already in the destroyed
state, a further close() invokes the native close on the destroyed object and
the platform destroyed-object error surfaces instead of a silent no-op. -/
theorem C3_close_null_guard_only (w : Win) (h : w.destroyed = true) :
    WindowService.close Option.none = Except.ok Option.none ∧
    WindowService.close (Option.some w) = Except.error ("Object has been destroyed") := by
  refine ⟨rfl, ?_⟩
  simp [WindowService.close, Win.nativeClose, h, Except.map]

/-- Witness for C3 at a concrete input: the destroyed sample window. -/
theorem C3_close_null_guard_only_witness :
    WindowService.close Option.none = Except.ok Option.none ∧
    WindowService.close (Option.some destroyedWinSample) =
      Except.error ("Object has been destroyed") :=
  C3_close_null_guard_only destroyedWinSample rfl

/-- C9: the close, minimize and maximize command handlers resolve their
target solely from the transport-level sender of the message: two events with
the same sender but arbitrary different payloads (even of different types)
produce identical results, and any window the sender resolves to is the
sender's own live window, so a presentation process cannot control another
surface. -/
theorem C9_window_control_sender_only {π1 π2 : Type} (wins : List Win)
    (e1 : IpcEvent π1) (e2 : IpcEvent π2) (h : e1.senderId = e2.senderId) :
    (WindowService.handleCloseWindow wins e1 = WindowService.handleCloseWindow wins e2 ∧
     WindowService.handleMinimizeWindow wins e1 = WindowService.handleMinimizeWindow wins e2 ∧
     WindowService.handleMaximizeWindow wins e1 = WindowService.handleMaximizeWindow wins e2) ∧
    (∀ w : Win, browserWindowFromWebContents wins e1.senderId = Option.some w →
      w.webContentsId = e1.senderId ∧ w.destroyed = false) := by
  constructor
  · refine ⟨?_, ?_, ?_⟩ <;>
      simp only [WindowService.handleCloseWindow, WindowService.handleMinimizeWindow,
        WindowService.handleMaximizeWindow, h]
  · intro w hw
    have hp := List.find?_some hw
    have hp2 : (!w.destroyed) = true ∧ (w.webContentsId == e1.senderId) = true :=
      Bool.and_eq_true_iff.mp hp
    constructor
    · have h2 := hp2.2
      simpa using h2
    · have h1 := hp2.1
      simpa using h1

/-- Witness for C9 at a concrete input: one live window owning webContents 1;
a Nat payload and a String payload from the same sender minimize the same
window. -/
theorem C9_window_control_sender_only_witness :
    WindowService.handleMinimizeWindow [liveWinSample]
        { senderId := 1, payload := (0 : Nat) } =
      WindowService.handleMinimizeWindow [liveWinSample]
        { senderId := 1, payload := ("other" : String) } :=
  ((C9_window_control_sender_only [liveWinSample]
      { senderId := 1, payload := (0 : Nat) }
      { senderId := 1, payload := ("other" : String) } rfl).1).2.1

/-- C10: the debounced resize callback checks that the window is not
destroyed before sending the maximize-state broadcast, so once the handle is
destroyed the send is unreachable and no message is dispatched. -/
theorem C10_resize_send_guarded (s : Surface) (h : s.destroyed = true) :
    WindowService.updateWinStatusSend s = Option.none := by
  simp [WindowService.updateWinStatusSend, h]

/-- Witness for C10 at a concrete input: a destroyed surface with a pending
timer produces no send. -/
theorem C10_resize_send_guarded_witness :
    WindowService.updateWinStatusSend
      { destroyed := true, maximizable := true,
        resizeListenerAttached := false, pendingDebounce := Option.some 5 } = Option.none :=
  C10_resize_send_guarded
    { destroyed := true, maximizable := true,
      resizeListenerAttached := false, pendingDebounce := Option.some 5 } rfl

/-- Helper: the per-file sweep loop deletes exactly the files satisfying
sweptPred and logs exactly one failure line per file satisfying
sweepFailPred, in listing order. -/
theorem sweepFiles_eq_filters (cutoff : Int) (files : List LogFile) :
    LogService.sweepFiles cutoff files =
      { deleted := (files.filter (fun f => sweptPred cutoff f)).map (fun f => f.name),
        errLogged := (files.filter (fun f => sweepFailPred cutoff f)).map
          (fun f => "Failed to cleanup old log file: " ++ f.name) } := by
  induction files with
  | nil => rfl
  | cons f rest ih =>
    cases h1 : jsEndsWith f.name (".log") <;>
    cases h2 : f.statErr <;>
    cases h3 : f.isFile <;>
    cases h4 : f.unlinkErr <;>
    by_cases h5 : f.birthtime < cutoff <;>
      simp [LogService.sweepFiles, ih, sweptPred, sweepFailPred, h1, h2, h3, h4, h5,
        List.filter_cons]

/-- C1: the claim fails on the code: for each of the four levels the preload
bridge forwards log commands on the matching log channel, and running
LogService._setupIpcEvent would register exactly those four handlers, but the
LogService constructor (the only code path run when the singleton is created)
never invokes _setupIpcEvent, so after construction no log command channel
has a registered handler and a forwarded entry is never received by the Log
Sink. -/
theorem C1_log_command_channels_unhandled :
    LogService.setupIpcEventChannels =
      [preloadLoggerChannel LogLevel.debug, preloadLoggerChannel LogLevel.info,
       preloadLoggerChannel LogLevel.warn, preloadLoggerChannel LogLevel.error] ∧
    LogCtorStep.runSetupIpcEvent ∉ LogService.constructorSteps ∧
    LogService.registeredChannels = [] ∧
    preloadLoggerChannel LogLevel.debug ∉ LogService.registeredChannels ∧
    preloadLoggerChannel LogLevel.info ∉ LogService.registeredChannels ∧
    preloadLoggerChannel LogLevel.warn ∉ LogService.registeredChannels ∧
    preloadLoggerChannel LogLevel.error ∉ LogService.registeredChannels := by
  decide

/-- C6 counterexample: the source filter is only the .log suffix, not the
day-file pattern: run at day 20 over a directory holding the fresh day file
of day 19 and the stale non-day-named file foo.log of day 12, the sweep
deletes foo.log although it does not match the day-file pattern, refuting
that exactly the day-pattern files older than the cutoff are deleted and all
others retained. -/
theorem C6_counterexample :
    matchesDayFilePattern ("foo.log") = false ∧
    (LogService.cleanupOldLogs (20 * msPerDay) fooLogDir).deleted = [("foo.log")] := by
  decide

/-- C6 amended: with an existing, listable directory and no filesystem
faults, the sweep with retentionDays = 7 deletes exactly the regular files
whose name ends in .log (the source checks the suffix, not the full day-file
pattern) and whose creation time is strictly older than now minus 7 days,
retaining all others; and under distinct names any file no older than 7 days,
in particular the currently-active day file, is never deleted. -/
theorem C6_retention_sweep (now : Int) (dir : LogDir)
    (hdir : dir.dirExists = true) (hrd : dir.readdirErr = false)
    (hok : ∀ f ∈ dir.files, f.statErr = false ∧ f.unlinkErr = false) :
    (LogService.cleanupOldLogs now dir).deleted =
      (dir.files.filter (fun f =>
        jsEndsWith f.name (".log") && f.isFile &&
          decide (f.birthtime < now - 7 * msPerDay))).map (fun f => f.name) ∧
    (∀ f ∈ dir.files, ¬(f.birthtime < now - 7 * msPerDay) →
      (dir.files.map (fun g => g.name)).Nodup →
        f.name ∉ (LogService.cleanupOldLogs now dir).deleted) := by
  have hcu : LogService.cleanupOldLogs now dir =
      LogService.sweepFiles (now - 7 * msPerDay) dir.files := by
    simp [LogService.cleanupOldLogs, hdir, hrd, LOG_RETENTION_DAYS]
  have hchar : (LogService.cleanupOldLogs now dir).deleted =
      (dir.files.filter (fun f =>
        jsEndsWith f.name (".log") && f.isFile &&
          decide (f.birthtime < now - 7 * msPerDay))).map (fun f => f.name) := by
    rw [hcu, sweepFiles_eq_filters]
    have hfc : dir.files.filter (fun f => sweptPred (now - 7 * msPerDay) f) =
        dir.files.filter (fun f =>
          jsEndsWith f.name (".log") && f.isFile &&
            decide (f.birthtime < now - 7 * msPerDay)) := by
      apply List.filter_congr
      intro f hf
      have h1 := (hok f hf).1
      have h2 := (hok f hf).2
      simp [sweptPred, h1, h2, Bool.and_assoc]
    rw [hfc]
  refine ⟨hchar, ?_⟩
  intro f hf hfresh hnodup hmem
  rw [hchar] at hmem
  obtain ⟨g, hg, hgname⟩ := List.mem_map.mp hmem
  obtain ⟨hgmem, hgpred⟩ := List.mem_filter.mp hg
  have hgf : g = f := by
    have hinj := List.inj_on_of_nodup_map hnodup
    exact hinj hgmem hf hgname
  rw [hgf] at hgpred
  have : f.birthtime < now - 7 * msPerDay := by
    have := Bool.and_eq_true_iff.mp hgpred
    exact of_decide_eq_true this.2
  exact hfresh this

/-- Witness for C6 at the spec's concrete retention scenario: run at day 20
over day files created at days 19, 12 and 10 (now-1, now-8, now-10), the
sweep deletes exactly the now-8 and now-10 files and retains the now-1
file. -/
theorem C6_retention_sweep_witness :
    (LogService.cleanupOldLogs (20 * msPerDay) schedLogDir).deleted =
      [("log-2024-01-12.log"), ("log-2024-01-10.log")] ∧
    ("log-2024-01-19.log" : String) ∉
      (LogService.cleanupOldLogs (20 * msPerDay) schedLogDir).deleted := by
  have h := C6_retention_sweep (20 * msPerDay) schedLogDir rfl rfl (by decide)
  exact ⟨h.1.trans (by decide), h.2 freshDayFile (by decide) (by decide) (by decide)⟩

/-- C7: the retention sweep never propagates an error: it is a total function
of the observed directory state; when the log directory does not exist it is
a silent no-op (nothing deleted, nothing logged) whatever the listing holds;
and a stat failure on one file is caught and logged without aborting the
sweep: an expired healthy file listed after the failing one is still
deleted. -/
theorem C7_sweep_error_tolerance (now : Int) (r : Bool) (pre post : List LogFile)
    (bad f : LogFile)
    (hbadlog : jsEndsWith bad.name (".log") = true) (hbadstat : bad.statErr = true)
    (hf : f ∈ post) (hflog : jsEndsWith f.name (".log") = true)
    (hfstat : f.statErr = false) (hffile : f.isFile = true)
    (hfold : f.birthtime < now - 7 * msPerDay) (hfunl : f.unlinkErr = false) :
    (∀ files : List LogFile,
      LogService.cleanupOldLogs now
        { dirExists := false, readdirErr := r, files := files } =
        { deleted := [], errLogged := [] }) ∧
    ("Failed to cleanup old log file: " ++ bad.name) ∈
      (LogService.cleanupOldLogs now
        { dirExists := true, readdirErr := false, files := pre ++ bad :: post }).errLogged ∧
    f.name ∈
      (LogService.cleanupOldLogs now
        { dirExists := true, readdirErr := false, files := pre ++ bad :: post }).deleted := by
  have hcu : LogService.cleanupOldLogs now
      { dirExists := true, readdirErr := false, files := pre ++ bad :: post } =
      LogService.sweepFiles (now - 7 * msPerDay) (pre ++ bad :: post) := by
    simp [LogService.cleanupOldLogs, LOG_RETENTION_DAYS]
  refine ⟨fun files => by simp [LogService.cleanupOldLogs], ?_, ?_⟩
  · rw [hcu, sweepFiles_eq_filters]
    apply List.mem_map.mpr
    refine ⟨bad, List.mem_filter.mpr ⟨?_, ?_⟩, rfl⟩
    · exact List.mem_append.mpr (Or.inr (List.mem_cons_self bad post))
    · simp [sweepFailPred, hbadlog, hbadstat]
  · rw [hcu, sweepFiles_eq_filters]
    apply List.mem_map.mpr
    refine ⟨f, List.mem_filter.mpr ⟨?_, ?_⟩, rfl⟩
    · exact List.mem_append.mpr (Or.inr (List.mem_cons_of_mem bad hf))
    · simp [sweptPred, hflog, hfstat, hffile, hfunl, hfold]

/-- Witness for C7 at a concrete input: directory-absence no-op at an empty
listing, and, in a listing holding a stat-failing expired file followed by a
healthy expired file, the failure is logged and the healthy file is still
deleted. -/
theorem C7_sweep_error_tolerance_witness :
    LogService.cleanupOldLogs (20 * msPerDay)
      { dirExists := false, readdirErr := false, files := [] } =
      { deleted := [], errLogged := [] } ∧
    ("Failed to cleanup old log file: " ++ badStatFile.name) ∈
      (LogService.cleanupOldLogs (20 * msPerDay)
        { dirExists := true, readdirErr := false,
          files := [] ++ badStatFile :: [oldOkFile] }).errLogged ∧
    oldOkFile.name ∈
      (LogService.cleanupOldLogs (20 * msPerDay)
        { dirExists := true, readdirErr := false,
          files := [] ++ badStatFile :: [oldOkFile] }).deleted := by
  have h := C7_sweep_error_tolerance (20 * msPerDay) false [] [oldOkFile]
    badStatFile oldOkFile (by decide) (by decide) (by decide) (by decide)
    (by decide) (by decide) (by decide) (by decide)
  exact ⟨h.1 [], h.2.1, h.2.2⟩

/-- Helper: folding a burst over a state whose pending timer was scheduled by
the burst's predecessor never fires the timer; each call only reschedules it,
so the final pending timer carries the last call's deadline, context and
arguments, and nothing new fires. -/
theorem debounce_fold_burst {γ α : Type} (wait : Nat) :
    ∀ (calls : List (DebCall γ α)) (prev : DebCall γ α) (F : List (Nat × γ × α)),
      burstWithin wait (prev :: calls) = true →
      calls.foldl (debounceStep wait)
        { pending := Option.some (prev.time + wait, prev.ctx, prev.args), fired := F } =
      { pending := Option.some
          (((prev :: calls).getLast (List.cons_ne_nil prev calls)).time + wait,
           ((prev :: calls).getLast (List.cons_ne_nil prev calls)).ctx,
           ((prev :: calls).getLast (List.cons_ne_nil prev calls)).args),
        fired := F } := by
  intro calls
  induction calls with
  | nil =>
    intro prev F _
    rfl
  | cons c cs ih =>
    intro prev F hburst
    have hb : (prev.time ≤ c.time ∧ c.time < prev.time + wait) ∧
        burstWithin wait (c :: cs) = true := by
      have := hburst
      simp only [burstWithin, Bool.and_eq_true, decide_eq_true_eq] at this
      exact this
    have hstep : debounceStep wait
        { pending := Option.some (prev.time + wait, prev.ctx, prev.args), fired := F } c =
        { pending := Option.some (c.time + wait, c.ctx, c.args), fired := F } := by
      simp only [debounceStep]
      rw [if_neg]
      exact Nat.not_le_of_lt hb.1.2
    have hlast : (prev :: c :: cs).getLast (List.cons_ne_nil prev (c :: cs)) =
        (c :: cs).getLast (List.cons_ne_nil c cs) := by
      simp [List.getLast]
    rw [List.foldl_cons, hstep, ih c F hb.2, hlast]

/-- C8: for every burst of calls to the debounced wrapper in default
(non-immediate) mode arriving faster than the wait window, the wrapped
function executes exactly once, at the last call's time plus the wait window,
with the calling context and the arguments of the most recent call of the
burst. -/
theorem C8_debounce_single_trailing_execution {γ α : Type} (wait : Nat)
    (c : DebCall γ α) (rest : List (DebCall γ α))
    (h : burstWithin wait (c :: rest) = true) :
    debounceRun wait (c :: rest) =
      [(((c :: rest).getLast (List.cons_ne_nil c rest)).time + wait,
        ((c :: rest).getLast (List.cons_ne_nil c rest)).ctx,
        ((c :: rest).getLast (List.cons_ne_nil c rest)).args)] := by
  unfold debounceRun
  rw [List.foldl_cons]
  have h0 : debounceStep wait { pending := Option.none, fired := [] } c =
      { pending := Option.some (c.time + wait, c.ctx, c.args), fired := [] } := by
    simp [debounceStep]
  rw [h0, debounce_fold_burst wait rest c [] h]
  rfl

/-- Witness for C8 at the spec's concrete scenario: 10 calls within 20 ms
against an 80 ms window produce exactly one execution, at time 98 (last call
at 18 plus the window), carrying the last call's context and arguments. -/
theorem C8_debounce_single_trailing_execution_witness :
    debounceRun 80 ((⟨0, 0, 0⟩ : DebCall Nat Nat) :: burstRest9) = [(98, 9, 9)] :=
  (C8_debounce_single_trailing_execution 80 ⟨0, 0, 0⟩ burstRest9 (by decide)).trans
    (by decide)
